import Mathlib

/-!
Shallow embedding of `blazeutils/decorators.py` (the signature-preserving
decorator and combinator framework): the retry combinator (`Retry.__call__`),
the exception-notifier combinator (`exc_emailer`), the currying combinator
(`curry.__init__`, `curry.__call__`, `_num_required_args`), the symbol-probing
routine (`unique_symbols`) and the signature-matching decorator factory
(`decorator` / `format_argspec_plus`).

Python values are modelled as natural numbers (their identity is all that
matters), exceptions as a class name plus a message text (`str(e)`), and a
callable's observable behaviour as a function from the received arguments to
a call result.
-/

/-- An opaque Python value; only identity matters for the properties here. -/
abbrev Value := Nat

/-- A Python exception: its class name and its message text (`str(e)`). -/
structure Exc where
  cls : String
  text : String
  deriving DecidableEq, Repr

/-- Outcome of calling a plain Python callable: a return value or a raised
exception. -/
inductive PyResult where
  | ok (v : Value)
  | exc (e : Exc)
  deriving DecidableEq, Repr

/-- `needle in hay` on Python strings (substring containment), used by
`Retry.__call__` for `self.msg not in str(e)`. -/
def strContains (hay needle : String) : Bool :=
  decide (needle.data <:+: hay.data)

/-! ## Retry combinator (`Retry.__call__`, decorators.py lines 280-294)

```python
def __call__(self, fn):
    @functools.wraps(fn)
    def wrapfn(*args, **kwargs):
        for _ in xrange(self.tries):
            try:
                return fn(*args, **kwargs)
            except self.exceptions, e:
                if self.msg is not None and self.msg not in str(e):
                    raise
                self.log.debug("Retry, exception: %s", e)
                time.sleep(self.delay)
        raise
    return wrapfn
```

The wrapped function's behaviour on the i-th invocation is modelled as
`fn i : PyResult` (same arguments each time; only the outcome per attempt
matters). `matchExc e` models `isinstance(e, self.exceptions)`. The result
records the outcome together with the number of invocations of `fn` and the
number of `time.sleep` calls. The bare `raise` after the loop re-raises the
last handled exception; if the loop body never handled one (`tries == 0`)
the bare `raise` itself fails, modelled as `bareRaiseFail`. -/

inductive RetryOut where
  | value (v : Value)
  | raised (e : Exc)
  | bareRaiseFail
  deriving DecidableEq, Repr

/-- Does the message gate reject exception `e`?  Models
`self.msg is not None and self.msg not in str(e)`. -/
def msgBlocks (msg : Option String) (e : Exc) : Bool :=
  match msg with
  | none => false
  | some m => !(strContains e.text m)

/-- The retry loop: `remaining` iterations left, `i` the index of the next
invocation, `last` the last handled exception. Returns the outcome, the
number of invocations of `fn`, and the number of sleeps performed. -/
def retryLoop (matchExc : Exc → Bool) (msg : Option String) (fn : Nat → PyResult) :
    Nat → Nat → Option Exc → RetryOut × Nat × Nat
  | 0, _, last =>
    (match last with
     | some e => RetryOut.raised e
     | none => RetryOut.bareRaiseFail, 0, 0)
  | remaining + 1, i, _ =>
    match fn i with
    | PyResult.ok v => (RetryOut.value v, 1, 0)
    | PyResult.exc e =>
      if matchExc e then
        if msgBlocks msg e then
          (RetryOut.raised e, 1, 0)
        else
          let r := retryLoop matchExc msg fn remaining (i + 1) (some e)
          (r.1, r.2.1 + 1, r.2.2 + 1)
      else
        (RetryOut.raised e, 1, 0)

/-- `wrapfn(*args, **kwargs)` for a `Retry(tries, exceptions, delay, msg)`
wrapper. -/
def retryCall (tries : Nat) (matchExc : Exc → Bool) (msg : Option String)
    (fn : Nat → PyResult) : RetryOut × Nat × Nat :=
  retryLoop matchExc msg fn tries 0 none

/-! ## Exception-notifier combinator (`exc_emailer`, decorators.py 215-255)

```python
@decorator
def decorate(fn, *args, **kwargs):
    exc_info = None
    try:
        return fn(*args, **kwargs)
    except catch, e:
        body = format_exc()
        exc_info = sys.exc_info()
        logger.exception(...)
        ...
        try:
            send_mail_func(body)
        except Exception:
            logger.exception(...)
            raise exc_info[0], exc_info[1], exc_info[2]
    finally:
        if exc_info is not None:
            del exc_info
```

`catchP e` models `isinstance(e, catch)`; `notifierRaises = some n` models
`send_mail_func(body)` raising exception `n` (caught by `except Exception`),
`none` models it returning normally. When the inner `except Exception`
branch runs, `raise exc_info[0], exc_info[1], exc_info[2]` re-raises the
ORIGINAL exception with its original traceback. When `send_mail_func`
returns normally, control falls off the end of `decorate`, which therefore
returns `None` (modelled as `noneReturn`): the original exception does NOT
propagate in that case. -/

inductive EmailerOut where
  | value (v : Value)
  | noneReturn
  | raised (e : Exc)
  deriving DecidableEq, Repr

/-- One invocation of the `exc_emailer(...)`-decorated function, given the
underlying callable's outcome `fnRes` and the notifier's outcome. -/
def excEmailerCall (catchP : Exc → Bool) (fnRes : PyResult)
    (notifierRaises : Option Exc) : EmailerOut :=
  match fnRes with
  | PyResult.ok v => EmailerOut.value v
  | PyResult.exc e =>
    if catchP e then
      match notifierRaises with
      | none => EmailerOut.noneReturn
      | some _ => EmailerOut.raised e
    else
      EmailerOut.raised e

/-! ## Currying combinator (`curry`, decorators.py 96-201)

An argument specification as returned by `inspect.getargspec`: named
parameters, optional varargs / varkw names, and the default values aligned
with the trailing suffix of `args`. -/

structure ArgSpec where
  args : List String
  varargs : Option String
  varkw : Option String
  defaults : List Value
  deriving Repr

/-- Outcome of `self.func(*args, **kwargs)` inside `curry.__call__`: a
value, a raised `TypeError` (an arity error or a `TypeError` from the body,
indistinguishable to the caller, as in the source), or any other raised
exception. -/
inductive CallResult where
  | ok (v : Value)
  | typeErr
  | exc (e : Exc)
  deriving Repr

/-- A Python callable as the curry combinator sees it: its argument
specification as `inspect.getargspec` reports it (`none` when `getargspec`
raises `TypeError`, i.e. the callable is not introspectable), and its
observable behaviour on a call with given positional and keyword
arguments. -/
structure PyFunc where
  spec : Option ArgSpec
  behavior : List Value → List (String × Value) → CallResult

/-- `_num_required_args(func)` (decorators.py 96-120):

```python
try:
    spec = inspect.getargspec(func)
    if spec.varargs:
        return None
    num_defaults = len(spec.defaults) if spec.defaults else 0
    return len(spec.args) - num_defaults
except TypeError:
    return None
``` -/
def numRequiredArgs (f : PyFunc) : Option Nat :=
  match f.spec with
  | none => none
  | some s =>
    if s.varargs.isSome then none
    else some (s.args.length - s.defaults.length)

/-- The state held by a `curry` instance: `self.func`, `self.args`,
`self.keywords` (which is `None` when no keyword arguments are held). -/
structure CurryState where
  func : PyFunc
  args : List Value
  keywords : Option (List (String × Value))

/-- Everything passed to a Python object that may or may not be callable:
`asCallable = none` models `callable(obj) == False`. -/
structure PyObject where
  asCallable : Option PyFunc

/-- A raised Python error carrying a message, for `curry.__init__`. -/
inductive PyError where
  | typeError (msg : String)
  deriving DecidableEq, Repr

/-- `curry.__init__` (decorators.py 154-165): raises
`TypeError("Input must be callable")` for a non-callable input before
binding anything; otherwise stores the function, the positional arguments,
and the keyword arguments (`None` when empty). -/
def curryInit (obj : PyObject) (args : List Value) (kwargs : List (String × Value)) :
    Except PyError CurryState :=
  match obj.asCallable with
  | none => Except.error (PyError.typeError "Input must be callable")
  | some f =>
    Except.ok { func := f, args := args,
                keywords := if kwargs.isEmpty then none else some kwargs }

/-- `dict.update` on association lists: keys of `base` keep their value
unless `new` overrides them; keys only in `new` are appended. -/
def kwUpdate (base new : List (String × Value)) : List (String × Value) :=
  base.filter (fun p => !(new.any (fun q => q.1 == p.1))) ++ new

/-- The keyword-argument merge at the top of `curry.__call__`
(decorators.py 174-183): fresh dict update when new keywords arrive,
otherwise the held keywords (or empty). -/
def curryMergeKw (held : Option (List (String × Value)))
    (new : List (String × Value)) : List (String × Value) :=
  if !new.isEmpty then kwUpdate (held.getD []) new
  else held.getD []

/-- Result of `curry.__call__`: a returned value, a propagated `TypeError`,
a propagated other exception, a `functools.partial`-style direct
application object (`onePending`), or a further `curry` instance. -/
inductive CurryCallResult where
  | value (v : Value)
  | raisedTypeError
  | raised (e : Exc)
  | onePending (f : PyFunc) (args : List Value) (kwargs : List (String × Value))
  | curried (c : CurryState)

/-- `curry.__call__` (decorators.py 173-201):

```python
def __call__(self, *args, **_kwargs):
    args = self.args + args
    ... kwargs merge ...
    try:
        return self.func(*args, **kwargs)
    except TypeError:
        required_args = _num_required_args(self.func)
        if required_args is not None and len(args) >= required_args:
            raise
        if (required_args is not None and required_args - len(args) == 1):
            if kwargs:
                return partial(self.func, *args, **kwargs)
            else:
                return partial(self.func, *args)
        return curry(self.func, *args, **kwargs)
``` -/
def curryCall (c : CurryState) (newArgs : List Value)
    (newKwargs : List (String × Value)) : CurryCallResult :=
  let args := c.args ++ newArgs
  let kwargs := curryMergeKw c.keywords newKwargs
  match c.func.behavior args kwargs with
  | CallResult.ok v => CurryCallResult.value v
  | CallResult.exc e => CurryCallResult.raised e
  | CallResult.typeErr =>
    match numRequiredArgs c.func with
    | some r =>
      if args.length ≥ r then CurryCallResult.raisedTypeError
      else if r - args.length == 1 then CurryCallResult.onePending c.func args kwargs
      else CurryCallResult.curried
        { func := c.func, args := args,
          keywords := if kwargs.isEmpty then none else some kwargs }
    | none => CurryCallResult.curried
        { func := c.func, args := args,
          keywords := if kwargs.isEmpty then none else some kwargs }

/-! ## Symbol probing (`unique_symbols`, decorators.py 63-75)

```python
def unique_symbols(used, *bases):
    used = set(used)
    for base in bases:
        pool = itertools.chain((base,),
                               itertools.imap(lambda i: base + str(i),
                                              xrange(1000)))
        for sym in pool:
            if sym not in used:
                used.add(sym)
                yield sym
                break
        else:
            raise NameError("exhausted namespace for symbol base %s" % base)
``` -/

/-- The candidate pool for one base: `base`, then `base + str(i)` for
`i` in `xrange(1000)` — that is `base0, base1, ..., base999`. -/
def symbolCandidates (base : String) : List String :=
  base :: (List.range 1000).map (fun i => base ++ toString i)

/-- The symbol chosen for one base: the first candidate not in `used`;
`none` models the `NameError` raised when the pool is exhausted. -/
def uniqueSymbol (used : List String) (base : String) : Option String :=
  (symbolCandidates base).find? (fun s => !used.contains s)

/-- `unique_symbols(used, *bases)`, fully consumed: each chosen symbol is
added to `used` before the next base is processed; `none` models the
`NameError`. -/
def uniqueSymbols (used : List String) : List String → Option (List String)
  | [] => some []
  | b :: bs =>
    match uniqueSymbol used b with
    | none => none
    | some s => (uniqueSymbols (s :: used) bs).map (fun rest => s :: rest)

/-! ## Signature-matching decorator factory (`decorator`, decorators.py 77-93)

```python
def decorator(target):
    def decorate(fn):
        spec = inspect.getargspec(fn)
        names = tuple(spec[0]) + spec[1:3] + (fn.func_name,)
        targ_name, fn_name = unique_symbols(names, 'target', 'fn')
        metadata = dict(target=targ_name, fn=fn_name)
        metadata.update(format_argspec_plus(spec, grouped=False))
        code = 'lambda %(args)s: %(target)s(%(fn)s, %(apply_kw)s)' % (metadata)
        decorated = eval(code, {targ_name:target, fn_name:fn})
        decorated.func_defaults = getattr(fn, 'im_func', fn).func_defaults
        return update_wrapper(decorated, fn)
    return update_wrapper(decorate, target)
```

The generated wrapper is a lambda whose parameter list is exactly `fn`'s
own argument specification (`format_argspec_plus`'s `args` form), whose
defaults are overwritten with `fn`'s own default objects
(`decorated.func_defaults = ...`), and whose body calls
`target(fn, <apply_kw form>)`. The `apply_kw` calling form
(format_argspec_plus, decorators.py 12-61) passes parameters without a
default positionally, then each defaulted parameter as `name=name`, then
`*varargs`, then `**varkw`. Under Python call-evaluation, such a call
passes positionally the non-defaulted parameter values followed by the
unpacked varargs tuple, and as keywords the defaulted parameters (bound
value under their own name) together with the varkw entries.

The wrapper's observable behaviour is therefore fixed by two pieces of
Python semantics embedded below: `bindCall` (how a call's positional and
keyword arguments bind against an argument specification — the wrapper
declares exactly `fn`'s specification with `fn`'s defaults) and
`applyKwForward` (which call the wrapper body then makes on `target`). -/

/-- A successful Python argument binding for a call against an `ArgSpec`:
every declared parameter name paired with its bound value (declaration
order), the tuple bound to `*varargs`, and the dict bound to `**varkw`. -/
structure Binding where
  bound : List (String × Value)
  varargsVal : List Value
  varkwVal : List (String × Value)
  deriving Repr, DecidableEq

/-- The value bound to declared parameter `i` for a call
`(pos, kw)` against `spec`, when the call is accepted: positional if `i`
falls inside the supplied positional prefix, else the keyword with that
parameter's name, else the parameter's own default (defaults align with
the trailing suffix of `spec.args`), else unbound (`none`). -/
def argVal (spec : ArgSpec) (pos : List Value) (kw : List (String × Value))
    (i : Nat) : Option Value :=
  if i < min pos.length spec.args.length then pos.get? i
  else
    match List.lookup (spec.args.getD i "") kw with
    | some v => some v
    | none =>
      if spec.args.length - spec.defaults.length ≤ i then
        spec.defaults.get? (i - (spec.args.length - spec.defaults.length))
      else none

/-- Python call binding: `f(*pos, **kw)` against the parameter list
described by `spec`. Returns `none` (a `TypeError` at the call) when there
are excess positional arguments but no varargs, an unknown keyword but no
varkw, a keyword naming a positionally-filled parameter ("got multiple
values"), or a required parameter left unbound; otherwise the binding. -/
def bindCall (spec : ArgSpec) (pos : List Value) (kw : List (String × Value)) :
    Option Binding :=
  let n := spec.args.length
  if n < pos.length && spec.varargs.isNone then none
  else if (kw.any fun p => !(spec.args.contains p.1)) && spec.varkw.isNone then none
  else if kw.any (fun p => decide (List.indexOf p.1 spec.args < min pos.length n)) then none
  else if (List.range n).all (fun i => (argVal spec pos kw i).isSome) then
    some { bound := (List.range n).map (fun i => (spec.args.getD i "", (argVal spec pos kw i).getD 0)),
           varargsVal := pos.drop n,
           varkwVal := kw.filter (fun p => !(spec.args.contains p.1)) }
  else none

/-- Whether the original function `fn` itself accepts the call
`(pos, kw)` — Python binding against its own specification. -/
def fnAccepts (spec : ArgSpec) (pos : List Value) (kw : List (String × Value)) : Bool :=
  (bindCall spec pos kw).isSome

/-- The call the synthesized wrapper forwards to `target` (after `fn`
itself): its positional argument list and its keyword arguments. -/
structure ForwardedCall where
  pos : List Value
  kw : List (String × Value)
  deriving Repr, DecidableEq

/-- The `apply_kw` calling form, evaluated on a binding: parameters
without a default are passed positionally followed by the varargs tuple;
each defaulted parameter is passed as `name=<its bound value>`, together
with the varkw entries. -/
def applyKwForward (spec : ArgSpec) (b : Binding) : ForwardedCall :=
  let k := spec.args.length - spec.defaults.length
  { pos := (b.bound.take k).map Prod.snd ++ b.varargsVal,
    kw := b.bound.drop k ++ b.varkwVal }

/-- One invocation of `decorator(target)(fn)` on the call `(pos, kw)`:
the wrapper (declared with exactly `fn`'s specification and `fn`'s own
defaults) binds the received arguments; on a binding failure the same
`TypeError` as for `fn` itself is raised (`none`); otherwise the body
calls `target` with `fn` as first argument followed by the `apply_kw`
forwarding of the binding. `fn` is an opaque token of type `Fn`; `target`
is abstract. -/
def decoratedCall {Fn T : Type} (fn : Fn) (target : Fn → ForwardedCall → T)
    (spec : ArgSpec) (pos : List Value) (kw : List (String × Value)) : Option T :=
  (bindCall spec pos kw).map (fun b => target fn (applyKwForward spec b))

/-! ## Concrete examples used by the witnesses -/

/-- `def add3(x, y, z): return x + y + z`, as the curry combinator sees
it: required count 3; the body returns the sum when exactly three
positional arguments and no keywords arrive, otherwise the call raises a
`TypeError` (an arity error). -/
def add3Func : PyFunc where
  spec := some { args := ["x", "y", "z"], varargs := none, varkw := none, defaults := [] }
  behavior := fun a k => if a.length == 3 && k.isEmpty then CallResult.ok a.sum else CallResult.typeErr

/-- `def bad(*args): raise TypeError(...)` — a variadic callable whose
body always raises a `TypeError`. -/
def variadicTypeErrFunc : PyFunc where
  spec := some { args := [], varargs := some "args", varkw := none, defaults := [] }
  behavior := fun _ _ => CallResult.typeErr

/-- `def boom(*args): raise ValueError("boom")` — a variadic callable
whose body always raises a non-TypeError exception. -/
def variadicValueErrFunc : PyFunc where
  spec := some { args := [], varargs := some "args", varkw := none, defaults := [] }
  behavior := fun _ _ => CallResult.exc ⟨"ValueError", "boom"⟩

/-- The specification of `def f(a, b, c=3, *d, **e)`, the signature used
by the spec's property P1. -/
def specExample : ArgSpec where
  args := ["a", "b", "c"]
  varargs := some "d"
  varkw := some "e"
  defaults := [3]

/-! ## Theorems -/

/-- C1 (counterexample). The claim says a caught exception always
ultimately propagates to the caller regardless of whether the notifier
succeeds. At the concrete input where the wrapped callable raises
`RuntimeError("boom")`, the catch set matches everything, and the
notifier succeeds, the wrapper instead returns `None`: the failure is
swallowed, contradicting the claimed propagation. -/
theorem exc_emailer_swallow_counterexample :
    excEmailerCall (fun _ => true) (PyResult.exc ⟨"RuntimeError", "boom"⟩) none
      = EmailerOut.noneReturn
    ∧ EmailerOut.noneReturn ≠ EmailerOut.raised ⟨"RuntimeError", "boom"⟩ := by
  decide

/-- C1 (amended). A caught exception propagates exactly when the
notifier fails: if the notifier raises, the original exception is
re-raised; if the notifier succeeds, the wrapper swallows the failure and
returns `None` (as the source's own docstring states); an uncaught
exception always propagates untouched. -/
theorem exc_emailer_propagation_amended (catchP : Exc → Bool) (e e' n : Exc)
    (r : Option Exc) (hc : catchP e = true) (hnc : catchP e' = false) :
    excEmailerCall catchP (PyResult.exc e) (some n) = EmailerOut.raised e
    ∧ excEmailerCall catchP (PyResult.exc e) none = EmailerOut.noneReturn
    ∧ excEmailerCall catchP (PyResult.exc e') r = EmailerOut.raised e' := by
  refine ⟨?_, ?_, ?_⟩ <;> simp [excEmailerCall, hc, hnc]

theorem exc_emailer_propagation_amended_witness :
    ((fun ex : Exc => ex.cls == "RuntimeError") ⟨"RuntimeError", "boom"⟩ = true)
    ∧ ((fun ex : Exc => ex.cls == "RuntimeError") ⟨"KeyError", "k"⟩ = false)
    ∧ excEmailerCall (fun ex => ex.cls == "RuntimeError")
        (PyResult.exc ⟨"RuntimeError", "boom"⟩) (some ⟨"IOError", "x"⟩)
        = EmailerOut.raised ⟨"RuntimeError", "boom"⟩ :=
  ⟨by decide, by decide,
   (exc_emailer_propagation_amended (fun ex => ex.cls == "RuntimeError")
      ⟨"RuntimeError", "boom"⟩ ⟨"KeyError", "k"⟩ ⟨"IOError", "x"⟩ none
      (by decide) (by decide)).1⟩

/-- C5. If the wrapped callable raises a caught exception and the
notifier itself raises while reporting it, the wrapper re-raises the
ORIGINAL exception (the `raise exc_info[0], exc_info[1], exc_info[2]`
branch), not the notifier's exception. -/
theorem exc_emailer_reraises_original (catchP : Exc → Bool) (e nexc : Exc)
    (hc : catchP e = true) :
    excEmailerCall catchP (PyResult.exc e) (some nexc) = EmailerOut.raised e := by
  simp [excEmailerCall, hc]

theorem exc_emailer_reraises_original_witness :
    ((fun ex : Exc => ex.cls == "RuntimeError") ⟨"RuntimeError", "r"⟩ = true)
    ∧ excEmailerCall (fun ex => ex.cls == "RuntimeError")
        (PyResult.exc ⟨"RuntimeError", "r"⟩) (some ⟨"IOError", "io fail"⟩)
        = EmailerOut.raised ⟨"RuntimeError", "r"⟩ :=
  ⟨by decide,
   exc_emailer_reraises_original (fun ex => ex.cls == "RuntimeError")
     ⟨"RuntimeError", "r"⟩ ⟨"IOError", "io fail"⟩ (by decide)⟩

/-- Helper: one iteration of the retry loop on an attempt that raises a
matching un-gated exception recurses with one more invocation and one
more sleep recorded. -/
theorem retryLoop_step (matchExc : Exc → Bool) (msg : Option String)
    (fn : Nat → PyResult) (k i : Nat) (last : Option Exc) (e : Exc)
    (hfn : fn i = PyResult.exc e) (hm : matchExc e = true)
    (hmsg : msgBlocks msg e = false) :
    retryLoop matchExc msg fn (k + 1) i last
      = ((retryLoop matchExc msg fn k (i + 1) (some e)).1,
         (retryLoop matchExc msg fn k (i + 1) (some e)).2.1 + 1,
         (retryLoop matchExc msg fn k (i + 1) (some e)).2.2 + 1) := by
  simp only [retryLoop, hfn, hm, hmsg, if_true, if_false, Bool.false_eq_true]

/-- Helper: the retry loop on a function that raises a matching exception
on every attempt, with no message gate, runs all its iterations and then
re-raises the last exception; it invokes and sleeps once per iteration. -/
theorem retryLoop_always_raising (matchExc : Exc → Bool) (fn : Nat → PyResult)
    (es : Nat → Exc) (hfn : ∀ i, fn i = PyResult.exc (es i))
    (hm : ∀ i, matchExc (es i) = true) :
    ∀ k i last, retryLoop matchExc none fn (k + 1) i last
      = (RetryOut.raised (es (i + k)), k + 1, k + 1) := by
  intro k
  induction k with
  | zero =>
    intro i last
    rw [retryLoop_step matchExc none fn 0 i last (es i) (hfn i) (hm i) rfl]
    simp [retryLoop]
  | succ k ih =>
    intro i last
    rw [retryLoop_step matchExc none fn (k + 1) i last (es i) (hfn i) (hm i) rfl]
    rw [ih (i + 1) (some (es i))]
    have harith : i + 1 + k = i + (k + 1) := by omega
    rw [harith]

/-- C4. A `Retry(tries, exceptions, delay)` wrapper (no message gate)
around a function that raises a matching exception on every attempt
invokes the function exactly `tries` times and then re-raises the (last)
exception with its original identity; in particular `tries = 1` performs
a single invocation — no retry. -/
theorem retry_exhausts_tries (tries : Nat) (matchExc : Exc → Bool)
    (fn : Nat → PyResult) (es : Nat → Exc)
    (hfn : ∀ i, fn i = PyResult.exc (es i)) (hm : ∀ i, matchExc (es i) = true)
    (ht : 1 ≤ tries) :
    retryCall tries matchExc none fn
      = (RetryOut.raised (es (tries - 1)), tries, tries) := by
  obtain ⟨k, rfl⟩ : ∃ k, tries = k + 1 := ⟨tries - 1, by omega⟩
  have h := retryLoop_always_raising matchExc fn es hfn hm k 0 none
  simpa [retryCall] using h

theorem retry_exhausts_tries_witness :
    (1 ≤ 3)
    ∧ retryCall 3 (fun e => e.cls == "ValueError") none
        (fun _ => PyResult.exc ⟨"ValueError", "x"⟩)
      = (RetryOut.raised ⟨"ValueError", "x"⟩, 3, 3) :=
  ⟨by decide,
   retry_exhausts_tries 3 (fun e => e.cls == "ValueError")
     (fun _ => PyResult.exc ⟨"ValueError", "x"⟩) (fun _ => ⟨"ValueError", "x"⟩)
     (fun _ => rfl) (fun _ => rfl) (by decide)⟩

/-- C7. With a required message substring configured, an exception whose
kind matches but whose text does not contain the substring propagates on
the very first attempt: exactly one invocation, zero sleeps, regardless
of how many attempts remain. -/
theorem retry_message_gate_immediate (tries : Nat) (matchExc : Exc → Bool)
    (m : String) (fn : Nat → PyResult) (e : Exc) (ht : 1 ≤ tries)
    (hfn : fn 0 = PyResult.exc e) (hm : matchExc e = true)
    (hmsg : strContains e.text m = false) :
    retryCall tries matchExc (some m) fn = (RetryOut.raised e, 1, 0) := by
  obtain ⟨k, rfl⟩ : ∃ k, tries = k + 1 := ⟨tries - 1, by omega⟩
  simp [retryCall, retryLoop, hfn, hm, msgBlocks, hmsg]

theorem retry_message_gate_immediate_witness :
    (1 ≤ 3)
    ∧ ((fun _ : Nat => PyResult.exc ⟨"ValueError", "unrelated"⟩) 0
        = PyResult.exc ⟨"ValueError", "unrelated"⟩)
    ∧ (strContains "unrelated" "expected" = false)
    ∧ retryCall 3 (fun e => e.cls == "ValueError") (some "expected")
        (fun _ => PyResult.exc ⟨"ValueError", "unrelated"⟩)
      = (RetryOut.raised ⟨"ValueError", "unrelated"⟩, 1, 0) :=
  ⟨by decide, rfl, by decide,
   retry_message_gate_immediate 3 (fun e => e.cls == "ValueError") "expected"
     (fun _ => PyResult.exc ⟨"ValueError", "unrelated"⟩) ⟨"ValueError", "unrelated"⟩
     (by decide) rfl (by decide) (by decide)⟩

/-- C10. Constructing `curry` on a non-callable input raises
`TypeError("Input must be callable")` whatever the arguments: the check
precedes any binding, and no invocation of anything is attempted. -/
theorem curry_init_rejects_noncallable (obj : PyObject) (args : List Value)
    (kwargs : List (String × Value)) (h : obj.asCallable = none) :
    curryInit obj args kwargs
      = Except.error (PyError.typeError "Input must be callable") := by
  simp [curryInit, h]

theorem curry_init_rejects_noncallable_witness :
    ((PyObject.mk none).asCallable = none)
    ∧ curryInit (PyObject.mk none) [7] [("a", 1)]
      = Except.error (PyError.typeError "Input must be callable") :=
  ⟨rfl, curry_init_rejects_noncallable (PyObject.mk none) [7] [("a", 1)] rfl⟩

/-- C3. When the underlying callable has a known required
positional-argument count `r` and the invocation with the merged
arguments raises a `TypeError`: with merged count at or above `r` the
error propagates unchanged; with exactly one argument missing a direct
`functools.partial` is returned (not a further curry); otherwise a new
curry instance holding the merged arguments is returned. -/
theorem curry_arity_policy (c : CurryState) (newArgs : List Value)
    (newKwargs : List (String × Value)) (r : Nat)
    (hr : numRequiredArgs c.func = some r)
    (hty : c.func.behavior (c.args ++ newArgs) (curryMergeKw c.keywords newKwargs)
      = CallResult.typeErr) :
    ((c.args ++ newArgs).length ≥ r →
        curryCall c newArgs newKwargs = CurryCallResult.raisedTypeError)
    ∧ ((c.args ++ newArgs).length + 1 = r →
        curryCall c newArgs newKwargs
          = CurryCallResult.onePending c.func (c.args ++ newArgs)
              (curryMergeKw c.keywords newKwargs))
    ∧ ((c.args ++ newArgs).length + 1 < r →
        curryCall c newArgs newKwargs
          = CurryCallResult.curried
              { func := c.func, args := c.args ++ newArgs,
                keywords := if (curryMergeKw c.keywords newKwargs).isEmpty then none
                            else some (curryMergeKw c.keywords newKwargs) }) := by
  refine ⟨fun h => ?_, fun h => ?_, fun h => ?_⟩ <;>
    simp only [curryCall, hty, hr]
  · rw [if_pos h]
  · rw [if_neg (by omega)]
    have h1 : (r - (c.args ++ newArgs).length == 1) = true := by
      simp only [beq_iff_eq]
      omega
    rw [if_pos h1]
  · rw [if_neg (by omega)]
    have h1 : ¬((r - (c.args ++ newArgs).length == 1) = true) := by
      simp only [beq_iff_eq]
      omega
    rw [if_neg h1]

theorem curry_arity_policy_witness :
    (numRequiredArgs add3Func = some 3)
    ∧ (add3Func.behavior ([1] ++ []) (curryMergeKw none []) = CallResult.typeErr)
    ∧ ([1].length + 1 < 3
        → curryCall { func := add3Func, args := [1], keywords := none } [] []
          = CurryCallResult.curried { func := add3Func, args := [1], keywords := none }) :=
  ⟨rfl, rfl,
   (curry_arity_policy { func := add3Func, args := [1], keywords := none } [] [] 3
      rfl rfl).2.2⟩

/-- C6 (counterexample). The claim says a variadic callable's body
exceptions always propagate and a call is never converted into a further
`CurriedCallable`. For the concrete variadic callable whose body raises
`TypeError`, the call `curry(f)(5)` instead returns a further curry
instance holding the argument, and the `TypeError` does not propagate. -/
theorem curry_variadic_counterexample :
    curryCall { func := variadicTypeErrFunc, args := [], keywords := none } [5] []
      = CurryCallResult.curried
          { func := variadicTypeErrFunc, args := [5], keywords := none }
    ∧ curryCall { func := variadicTypeErrFunc, args := [], keywords := none } [5] []
      ≠ CurryCallResult.raisedTypeError :=
  ⟨rfl, fun h => nomatch h⟩

/-- C6 (amended). A variadic callable is invoked on every call: a
returned value is returned and any non-TypeError exception from its body
propagates; but a `TypeError` raised by its body is caught and converted
into a further curry instance holding the merged arguments (the required
count is `None`, so the call is never treated as a genuine arity error
nor as one-argument-pending). -/
theorem curry_variadic_always_invokes (c : CurryState) (s : ArgSpec)
    (newArgs : List Value) (newKwargs : List (String × Value))
    (hs : c.func.spec = some s) (hv : s.varargs.isSome = true) :
    (∀ v, c.func.behavior (c.args ++ newArgs) (curryMergeKw c.keywords newKwargs)
        = CallResult.ok v →
        curryCall c newArgs newKwargs = CurryCallResult.value v)
    ∧ (∀ e, c.func.behavior (c.args ++ newArgs) (curryMergeKw c.keywords newKwargs)
        = CallResult.exc e →
        curryCall c newArgs newKwargs = CurryCallResult.raised e)
    ∧ (c.func.behavior (c.args ++ newArgs) (curryMergeKw c.keywords newKwargs)
        = CallResult.typeErr →
        curryCall c newArgs newKwargs
          = CurryCallResult.curried
              { func := c.func, args := c.args ++ newArgs,
                keywords := if (curryMergeKw c.keywords newKwargs).isEmpty then none
                            else some (curryMergeKw c.keywords newKwargs) }) := by
  have hnum : numRequiredArgs c.func = none := by
    simp [numRequiredArgs, hs, hv]
  refine ⟨fun v hb => ?_, fun e hb => ?_, fun hb => ?_⟩ <;>
    simp [curryCall, hb, hnum]

theorem curry_variadic_always_invokes_witness :
    curryCall { func := variadicValueErrFunc, args := [], keywords := none } [1, 2] []
      = CurryCallResult.raised ⟨"ValueError", "boom"⟩ :=
  (curry_variadic_always_invokes
      { func := variadicValueErrFunc, args := [], keywords := none }
      { args := [], varargs := some "args", varkw := none, defaults := [] }
      [1, 2] [] rfl rfl).2.1 ⟨"ValueError", "boom"⟩ rfl

/-- C9. A call on a curry instance never mutates it (the embedding of
`__call__` is a pure function of the instance and the call's own
arguments): when the call produces a further curry instance or a direct
partial application, the new object's positional arguments are exactly
the original's extended with this call's own (the original's arguments
are a prefix), and the function is unchanged — so two independent calls
on the same instance each observe only the originally bound arguments
plus their own. -/
theorem curry_call_extends_without_mutation (c : CurryState) (newArgs : List Value)
    (newKwargs : List (String × Value)) :
    (∀ c', curryCall c newArgs newKwargs = CurryCallResult.curried c' →
        c'.args = c.args ++ newArgs ∧ c.args <+: c'.args ∧ c'.func = c.func)
    ∧ (∀ f a k, curryCall c newArgs newKwargs = CurryCallResult.onePending f a k →
        a = c.args ++ newArgs ∧ c.args <+: a ∧ f = c.func) := by
  constructor
  · intro c' h
    simp only [curryCall] at h
    split at h
    · exact absurd h (by simp)
    · exact absurd h (by simp)
    · split at h
      · split at h
        · exact absurd h (by simp)
        · split at h
          · exact absurd h (by simp)
          · cases h
            exact ⟨rfl, List.prefix_append _ _, rfl⟩
      · cases h
        exact ⟨rfl, List.prefix_append _ _, rfl⟩
  · intro f a k h
    simp only [curryCall] at h
    split at h
    · exact absurd h (by simp)
    · exact absurd h (by simp)
    · split at h
      · split at h
        · exact absurd h (by simp)
        · split at h
          · cases h
            exact ⟨rfl, List.prefix_append _ _, rfl⟩
          · exact absurd h (by simp)
      · exact absurd h (by simp)

theorem curry_call_extends_without_mutation_witness :
    ([] : List Value) ++ [1] = [1]
    ∧ (({ func := add3Func, args := [1], keywords := none } : CurryState).args
        = ([] : List Value) ++ [1]
       ∧ ([] : List Value) <+: [1]
       ∧ ({ func := add3Func, args := [1], keywords := none } : CurryState).func
          = add3Func) :=
  ⟨rfl,
   (curry_call_extends_without_mutation
      { func := add3Func, args := [], keywords := none } [1] []).1
     { func := add3Func, args := [1], keywords := none } rfl⟩

set_option maxRecDepth 10000

/-- C8 (counterexample). The claim says the candidate sequence is
`target, target1, target2, ...`. In the source the pool after the bare
base is `base + str(i)` for `i in xrange(1000)`, so the second candidate
is `target0`, not `target1`: with `target` already in use the chosen
symbol is `target0`. (Third conjunct: the two bases the decorator factory
actually probes, `target` then `fn`.) -/
theorem unique_symbols_probe_counterexample :
    uniqueSymbol ["target"] "target" = some "target0"
    ∧ "target0" ≠ "target1"
    ∧ uniqueSymbols ["target"] ["target", "fn"] = some ["target0", "fn"] := by
  decide

/-- C8 (amended). The symbol for a base is the first unused candidate in
the sequence `base, base0, base1, ..., base999` — a pool of 1001
candidates — and the probe fails (the source's `NameError`, the spec's
`NamespaceExhaustedError`) exactly when every one of the 1001 candidates
is already in use. -/
theorem unique_symbol_probe_order (used : List String) (base : String) :
    symbolCandidates base = base :: (List.range 1000).map (fun i => base ++ toString i)
    ∧ (symbolCandidates base).length = 1001
    ∧ (uniqueSymbol used base = none ↔ ∀ s ∈ symbolCandidates base, s ∈ used)
    ∧ (∀ s, uniqueSymbol used base = some s →
        s ∈ symbolCandidates base ∧ ¬ s ∈ used) := by
  refine ⟨rfl, by simp [symbolCandidates], ?_, ?_⟩
  · rw [uniqueSymbol, List.find?_eq_none]
    constructor
    · intro h s hs
      simpa using h s hs
    · intro h s hs
      simpa using h s hs
  · intro s hfind
    refine ⟨List.mem_of_find?_eq_some hfind, ?_⟩
    simpa using List.find?_some hfind

theorem unique_symbol_probe_order_witness :
    "target0" ∈ symbolCandidates "target" ∧ ¬ "target0" ∈ ["target"] :=
  (unique_symbol_probe_order ["target"] "target").2.2.2 "target0" (by decide)

/-- Helper: reading every index of a list back via `getD` reproduces the
list. -/
theorem map_getD_range {α : Type} (l : List α) (d : α) :
    (List.range l.length).map (fun i => l.getD i d) = l := by
  refine List.ext_get (by simp) fun n h1 h2 => ?_
  simp only [List.get_eq_getElem, List.getElem_map, List.getElem_range]
  rw [List.getD_eq_getElem?_getD, List.getElem?_eq_getElem h2]
  rfl

/-- C2. `decorator(target)(fn)` produces a wrapper that accepts exactly
the calls `fn` accepts (same Python binding against `fn`'s own argument
specification, with `fn`'s own defaults), and on every accepted call
invokes `target` with `fn` as first argument followed by all received
arguments forwarded via the `apply_kw` form: parameter names cover
exactly `fn`'s declared parameters, positionally supplied parameters
carry the supplied value, keyword-supplied parameters carry the keyword's
value, omitted defaulted parameters carry `fn`'s own default, extra
positional arguments ride in the varargs slot, unknown keywords in the
varkw slot, and the defaulted suffix of the parameters is forwarded
keyword-style (`name=name`) while the non-defaulted prefix and the
varargs are forwarded positionally. -/
theorem decorator_signature_fidelity {Fn T : Type} (fn : Fn)
    (target : Fn → ForwardedCall → T) (spec : ArgSpec) (pos : List Value)
    (kw : List (String × Value)) :
    ((decoratedCall fn target spec pos kw).isSome = fnAccepts spec pos kw)
    ∧ (∀ b, bindCall spec pos kw = some b →
        decoratedCall fn target spec pos kw
          = some (target fn (applyKwForward spec b))
        ∧ b.bound.map Prod.fst = spec.args
        ∧ b.varargsVal = pos.drop spec.args.length
        ∧ b.varkwVal = kw.filter (fun p => !(spec.args.contains p.1))
        ∧ (applyKwForward spec b).pos
            = (b.bound.take (spec.args.length - spec.defaults.length)).map Prod.snd
              ++ b.varargsVal
        ∧ (applyKwForward spec b).kw
            = b.bound.drop (spec.args.length - spec.defaults.length) ++ b.varkwVal
        ∧ (∀ i, i < pos.length → i < spec.args.length →
            b.bound[i]? = some (spec.args.getD i "", pos.getD i 0))
        ∧ (∀ i w, pos.length ≤ i → i < spec.args.length →
            List.lookup (spec.args.getD i "") kw = some w →
            b.bound[i]? = some (spec.args.getD i "", w))
        ∧ (∀ i, pos.length ≤ i → i < spec.args.length →
            List.lookup (spec.args.getD i "") kw = none →
            spec.args.length - spec.defaults.length ≤ i →
            b.bound[i]? = some (spec.args.getD i "",
              spec.defaults.getD (i - (spec.args.length - spec.defaults.length)) 0))) := by
  constructor
  · cases h : bindCall spec pos kw <;> simp [decoratedCall, fnAccepts, h]
  · intro b hb
    have hb0 := hb
    simp only [bindCall] at hb
    split at hb
    · exact absurd hb (by simp)
    · split at hb
      · exact absurd hb (by simp)
      · split at hb
        · exact absurd hb (by simp)
        · split at hb
          · injection hb with hb1
            subst hb1
            refine ⟨by simp [decoratedCall, hb0], ?_, rfl, rfl, rfl, rfl, ?_, ?_, ?_⟩
            · simp only [List.map_map]
              have hcomp : (Prod.fst ∘ fun i =>
                  (spec.args.getD i "", (argVal spec pos kw i).getD 0))
                  = fun i => spec.args.getD i "" := rfl
              rw [hcomp]
              exact map_getD_range spec.args ""
            · intro i h1 h2
              rw [List.getElem?_map]
              rw [List.getElem?_range h2]
              simp only [Option.map_some']
              have hv : argVal spec pos kw i = pos.get? i := by
                rw [argVal, if_pos (lt_min h1 h2)]
              rw [hv, List.get?_eq_getElem?, ← List.getD_eq_getElem?_getD]
            · intro i w h1 h2 hlk
              rw [List.getElem?_map]
              rw [List.getElem?_range h2]
              simp only [Option.map_some']
              have hv : argVal spec pos kw i = some w := by
                rw [argVal, if_neg (by omega), hlk]
              rw [hv]
              rfl
            · intro i h1 h2 hlk hd
              rw [List.getElem?_map]
              rw [List.getElem?_range h2]
              simp only [Option.map_some']
              have hv : argVal spec pos kw i
                  = spec.defaults.get? (i - (spec.args.length - spec.defaults.length)) := by
                rw [argVal, if_neg (by omega), hlk, if_pos hd]
              rw [hv, List.get?_eq_getElem?, ← List.getD_eq_getElem?_getD]
          · exact absurd hb (by simp)

theorem decorator_signature_fidelity_witness :
    (bindCall specExample [1, 2, 4, 5] []
      = some { bound := [("a", 1), ("b", 2), ("c", 4)],
               varargsVal := [5], varkwVal := [] })
    ∧ decoratedCall (0 : Nat) (fun f c => (f, c)) specExample [1, 2, 4, 5] []
      = some (0, { pos := [1, 2, 5], kw := [("c", 4)] })
    ∧ decoratedCall (0 : Nat) (fun f c => (f, c)) specExample [1, 2] []
      = some (0, { pos := [1, 2], kw := [("c", 3)] }) :=
  ⟨by decide,
   by
     have h := ((decorator_signature_fidelity (0 : Nat) (fun f c => (f, c))
        specExample [1, 2, 4, 5] []).2
        { bound := [("a", 1), ("b", 2), ("c", 4)], varargsVal := [5], varkwVal := [] }
        (by decide)).1
     exact h,
   by
     have h := ((decorator_signature_fidelity (0 : Nat) (fun f c => (f, c))
        specExample [1, 2] []).2
        { bound := [("a", 1), ("b", 2), ("c", 3)], varargsVal := [], varkwVal := [] }
        (by decide)).1
     exact h⟩
